import Mathlib

/-!
Shallow embedding of the EasyEval/ZenEval evaluation flow.

The embedded code is the serverless request handler in
`supabase/functions/evaluate-response/index.ts` (the multi-answer
evaluation trigger), the submission-upload flow of the `UploadResponse`
component, and the `UNIQUE(exam_id, roll_number)` constraint of the
`responses` table.  Randomness (`Math.random()`), storage outcomes and
clock reads are supplied by an explicit environment; each call of
`Math.random()` consumes one rational draw in `[0, 1)`.
-/

namespace EasyEval

/-- One row of the `response_answers` select, joined with
`questions!inner(marks, answer_key)` as in the handler's fetch. -/
structure FetchedAnswer where
  id : String
  question_id : String
  image_url : Option String
  answer_text : Option String
  qmarks : Option Int
  answer_key : String
deriving DecidableEq

/-- The `corsHeaders` constant of the handler, verbatim. -/
def corsHeaders : List (String × String) :=
  [("Access-Control-Allow-Origin", "*"),
   ("Access-Control-Allow-Headers", "authorization, x-client-info, apikey, content-type")]

/-- Headers attached to the JSON success and error responses:
`{ ...corsHeaders, 'Content-Type': 'application/json' }`. -/
def jsonHeaders : List (String × String) :=
  corsHeaders ++ [("Content-Type", "application/json")]

/-- The fixed list of six canned remark strings of the scoring stub. -/
def remarkPool : List String :=
  ["Good attempt with clear explanations",
   "Excellent work with minor errors",
   "Needs improvement in methodology",
   "Outstanding performance",
   "Partial credit for showing work",
   "Well structured answer"]

/-- JavaScript `answer.questions?.marks || 1`: the default `1` applies when
the joined value is absent (null/undefined) and also when it is `0`,
because `0` is falsy in JavaScript. -/
def jsOrOne (m : Option Int) : Int :=
  match m with
  | none => 1
  | some v => if v = 0 then 1 else v

/-- JavaScript `Math.floor(Math.random() * (maxMarks + 1))`, with the
`Math.random()` draw `r` made explicit as a rational in `[0, 1)`. -/
def stubScore (maxMarks : Int) (r : ℚ) : Int :=
  ⌊r * ((maxMarks : ℚ) + 1)⌋

/-- JavaScript `[...][Math.floor(Math.random() * 6)]` indexing the canned
remark pool, with the draw `r` explicit. -/
def stubRemark (r : ℚ) : String :=
  remarkPool.getD (⌊r * 6⌋).toNat ""

/-- The per-answer remark line pushed onto `allRemarks`:
``Q${answer.question_id.slice(0, 4)}: ${remarks}``. -/
def remarkLine (question_id remark : String) : String :=
  "Q" ++ question_id.take 4 ++ ": " ++ remark

/-- The aggregate remark written onto the `responses` row:
``Total: ${totalMarks} marks. ${allRemarks.length} questions evaluated.`` -/
def totalRemark (total : Int) (count : Nat) : String :=
  "Total: " ++ toString total ++ " marks. " ++ toString count ++
    " questions evaluated."

/-- Observable events of the evaluation loop, in program order.  A
`writeAnswer` event records the completion (`await`) of that answer's
storage update, with its outcome. -/
inductive Event where
  | drawScore (answerId : String) (v : Int)
  | drawRemark (answerId : String) (remark : String)
  | writeAnswer (answerId : String) (ok : Bool)
deriving DecidableEq

/-- Storage write effects issued by the handler, in program order.
`ok = false` records that the storage layer reported an error for that
update (the handler logs it; for answers it continues, for the response
row it throws). -/
inductive Effect where
  | updateAnswer (id : String) (marks : Int) (remarks : String)
      (evaluated_at : String) (ok : Bool)
  | updateResponse (id : Option String) (marks : Int) (remarks : String)
      (evaluated_at : String) (ok : Bool)
deriving DecidableEq

/-- Result of the per-answer evaluation loop (lines 43-77 of the
handler): the running total, the `allRemarks` array, the issued answer
updates and the event trace. -/
structure EvalOut where
  total : Int
  allRemarks : List String
  effects : List Effect
  trace : List Event
deriving DecidableEq

/-- Environment of one handler invocation: the storage fetch keyed by the
(possibly absent) `responseId` of the request body, the `Math.random()`
stream, the storage outcome of each answer update (an error message, or
`none` for success), the storage outcome of the final response update,
and the clock. -/
structure Env where
  fetch : Option String → Except String (List FetchedAnswer)
  rand : Nat → ℚ
  updateAnswerError : String → Option String
  updateResponseError : Option String
  now : String

/-- The `for (const answer of responseAnswers)` loop: for each answer in
fetch order, compute `maxMarks` with the falsy default, draw the score and
the remark, await that answer's update (recording its outcome but never
aborting on it), then accumulate the total and the remark line.  `k`
counts answers already processed, so the draws of answer `k` are
`rand (2*k)` and `rand (2*k+1)`. -/
def evalAnswers (env : Env) : List FetchedAnswer → Nat → EvalOut
  | [], _ => ⟨0, [], [], []⟩
  | a :: rest, k =>
    let maxMarks := jsOrOne a.qmarks
    let earnedMarks := stubScore maxMarks (env.rand (2 * k))
    let remarks := stubRemark (env.rand (2 * k + 1))
    let ok := (env.updateAnswerError a.id).isNone
    let out := evalAnswers env rest (k + 1)
    ⟨earnedMarks + out.total,
     remarkLine a.question_id remarks :: out.allRemarks,
     Effect.updateAnswer a.id earnedMarks remarks env.now ok :: out.effects,
     Event.drawScore a.id earnedMarks :: Event.drawRemark a.id remarks ::
       Event.writeAnswer a.id ok :: out.trace⟩

/-- An HTTP request as the handler sees it: the method and the JSON body
as a field-name/value association list. -/
structure Req where
  method : String
  body : List (String × String)
deriving DecidableEq

/-- Response bodies the handler can produce. -/
inductive RespBody where
  | empty
  | success (totalMarks : Int) (answersEvaluated : Nat)
  | legacySuccess (marks : Int) (remarks : String)
  | err (msg : String)
deriving DecidableEq

/-- An HTTP response: status, headers, body.  `new Response(body, init)`
defaults the status to 200 when none is given. -/
structure HttpResponse where
  status : Nat
  headers : List (String × String)
  body : RespBody
deriving DecidableEq

/-- The `serve` handler of `evaluate-response/index.ts`: OPTIONS
preflight, then `const { responseId } = await req.json()`, the answers
fetch (a fetch error is thrown), the per-answer loop, the final
`responses` update whose error is thrown, and the success response whose
`answersEvaluated` is `responseAnswers?.length || 0`.  Thrown errors are
caught at the boundary and reported as status 500 with the raw message.
The second component collects the storage writes issued. -/
def serveHandler (env : Env) (req : Req) : HttpResponse × List Effect :=
  if req.method = "OPTIONS" then
    (⟨200, corsHeaders, RespBody.empty⟩, [])
  else
    let responseId := req.body.lookup "responseId"
    match env.fetch responseId with
    | Except.error msg => (⟨500, jsonHeaders, RespBody.err msg⟩, [])
    | Except.ok responseAnswers =>
      let out := evalAnswers env responseAnswers 0
      let finalEffect := Effect.updateResponse responseId out.total
        (totalRemark out.total out.allRemarks.length) env.now
        env.updateResponseError.isNone
      match env.updateResponseError with
      | some msg =>
        (⟨500, jsonHeaders, RespBody.err msg⟩, out.effects ++ [finalEffect])
      | none =>
        (⟨200, jsonHeaders,
          RespBody.success out.total responseAnswers.length⟩,
         out.effects ++ [finalEffect])

/-- Modelled from the spec: the legacy single-image variant of the
`evaluate-response` function is not present under `src/` (only its caller
is, the legacy `UploadResponse` component, which invokes the function with
body `{ responseId, imageUrl }`).  Per spec section 4.4 and section 6 the
variant accepts that body, ignores `imageUrl` entirely, performs the same
stub scoring directly on the `responses` row with no per-answer
breakdown, and returns `{ success: true, marks, remarks }` on success or
`{ error }` with status 500 on failure, with the same preflight
handling. -/
def legacyServeHandler (maxMarks : Int) (env : Env) (req : Req) :
    HttpResponse × List Effect :=
  if req.method = "OPTIONS" then
    (⟨200, corsHeaders, RespBody.empty⟩, [])
  else
    let responseId := req.body.lookup "responseId"
    let marks := stubScore maxMarks (env.rand 0)
    let remarks := stubRemark (env.rand 1)
    let eff := Effect.updateResponse responseId marks remarks env.now
      env.updateResponseError.isNone
    match env.updateResponseError with
    | some msg => (⟨500, jsonHeaders, RespBody.err msg⟩, [eff])
    | none => (⟨200, jsonHeaders, RespBody.legacySuccess marks remarks⟩, [eff])

/-- Projection of the marks field of a write effect. -/
def effectMarks : Effect → Int
  | Effect.updateAnswer _ m _ _ _ => m
  | Effect.updateResponse _ m _ _ _ => m

/-- Sum of the marks of a list of write effects, regardless of whether
each write succeeded. -/
def sumMarks (l : List Effect) : Int :=
  (l.map effectMarks).sum

/-- Score value carried by a `drawScore` event. -/
def eventScore : Event → Option Int
  | Event.drawScore _ v => some v
  | _ => none

/-- Strict per-answer interleaving: for each answer id in fetch order,
the trace contains exactly that answer's score draw, then its remark
draw, then the completion of its storage write, before any event of the
next answer appears.  In particular no two answer writes are in flight
at once. -/
def WellInterleaved : List String → List Event → Prop
  | [], [] => True
  | i :: rest,
    Event.drawScore i1 _ :: Event.drawRemark i2 _ ::
      Event.writeAnswer i3 _ :: tr =>
    i1 = i ∧ i2 = i ∧ i3 = i ∧ WellInterleaved rest tr
  | _, _ => False

/-- One row of the `responses` table as relevant to the uniqueness
constraint `UNIQUE(exam_id, roll_number)`. -/
structure ResponseRow where
  id : String
  exam_id : String
  roll_number : String
deriving DecidableEq

/-- One row of the `response_answers` table as written by the upload
flow. -/
structure AnswerRow where
  response_id : String
  question_id : String
deriving DecidableEq

/-- The store visible to the upload flow. -/
structure DB where
  responses : List ResponseRow
  response_answers : List AnswerRow
deriving DecidableEq

/-- One answer of the upload form: its question and whether it carries
content (`imageUrl || answerText` after trimming) — only answers with
content are inserted. -/
structure AnswerForm where
  questionId : String
  hasContent : Bool
deriving DecidableEq

/-- The submission path of `handleSubmit` in the `UploadResponse`
component: look up an existing `responses` row with the same
`(exam_id, roll_number.trim())`; if one exists, report the duplicate and
stop before inserting anything; otherwise insert the `responses` row and
then the `response_answers` rows for the answers that have content.  The
pre-check together with the table's `UNIQUE(exam_id, roll_number)`
constraint rejects the duplicate before any answer rows are written.
Returns the updated store and the error message, if any. -/
def uploadSubmit (db : DB) (examId rollNumber newId : String)
    (answers : List AnswerForm) : DB × Option String :=
  let roll := rollNumber.trim
  if db.responses.any (fun r => r.exam_id == examId && r.roll_number == roll)
  then
    (db, some "A response with this roll number already exists")
  else
    (⟨db.responses ++ [⟨newId, examId, roll⟩],
      db.response_answers ++
        (answers.filter (fun a => a.hasContent)).map
          (fun a => ⟨newId, a.questionId⟩)⟩,
     none)

/-- Two `responses` rows collide on the `UNIQUE(exam_id, roll_number)`
key. -/
def sameKey (a b : ResponseRow) : Prop :=
  a.exam_id = b.exam_id ∧ a.roll_number = b.roll_number

/-- The uniqueness invariant of the `responses` table: no two rows share
an `(exam_id, roll_number)` pair. -/
def uniquePairs (db : DB) : Prop :=
  db.responses.Pairwise (fun a b => ¬ sameKey a b)

/-- Concrete fetched answers used to exercise the theorems: one question
worth 2 marks and one whose `marks` value is 0. -/
def demoAnswers : List FetchedAnswer :=
  [⟨"a1", "q1", none, some "first answer", some 2, "key1"⟩,
   ⟨"a2", "q2", some "http://img", none, some 0, "key2"⟩]

/-- Concrete environment: the store serves `demoAnswers` for response
id `r1`, every `Math.random()` draw is `1/2`, the update of answer `a1`
fails at the storage layer, and the final response update succeeds. -/
def demoEnv : Env :=
  ⟨fun rid => if rid = some "r1" then Except.ok demoAnswers
              else Except.error "missing",
   fun _ => 1/2,
   fun id => if id = "a1" then some "boom" else none,
   none,
   "2026-01-01T00:00:00.000Z"⟩

/-- Concrete POST request carrying `responseId` `r1`. -/
def demoReq : Req := ⟨"POST", [("responseId", "r1")]⟩

/-- Concrete POST request whose `responseId` is unknown to the store. -/
def demoReqBad : Req := ⟨"POST", [("responseId", "zzz")]⟩

/-- Concrete store holding one submission for exam `e1`. -/
def demoDB : DB :=
  ⟨[⟨"r1", "e1", "roll-7".trim⟩], [⟨"r1", "q1"⟩]⟩

theorem stubScore_nonneg (m : Int) (r : ℚ) (hm : 0 ≤ m) (h0 : 0 ≤ r) :
    0 ≤ stubScore m r := by
  unfold stubScore
  apply Int.floor_nonneg.mpr
  have h1 : (0 : ℚ) ≤ (m : ℚ) + 1 := by
    have hc : (0 : ℚ) ≤ (m : ℚ) := by exact_mod_cast hm
    linarith
  exact mul_nonneg h0 h1

theorem stubScore_le (m : Int) (r : ℚ) (hm : 0 ≤ m) (h0 : 0 ≤ r)
    (h1 : r < 1) : stubScore m r ≤ m := by
  unfold stubScore
  have hpos : (0 : ℚ) < (m : ℚ) + 1 := by
    have hc : (0 : ℚ) ≤ (m : ℚ) := by exact_mod_cast hm
    linarith
  have hlt : r * ((m : ℚ) + 1) < (m : ℚ) + 1 := by nlinarith
  have hfl : ⌊r * ((m : ℚ) + 1)⌋ < m + 1 := by
    apply Int.floor_lt.mpr
    push_cast
    linarith
  omega

theorem jsOrOne_pos (qm : Option Int) (hm : ∀ v, qm = some v → 0 ≤ v) :
    1 ≤ jsOrOne qm := by
  match qm with
  | none => simp [jsOrOne]
  | some v =>
    have hv0 := hm v rfl
    simp only [jsOrOne]
    by_cases hv : v = 0
    · simp [hv]
    · simp only [hv, if_false]
      omega

theorem evalAnswers_total_eq_sumMarks (env : Env) (l : List FetchedAnswer) :
    ∀ k, (evalAnswers env l k).total = sumMarks (evalAnswers env l k).effects := by
  induction l with
  | nil => intro k; simp [evalAnswers, sumMarks]
  | cons a rest ih =>
    intro k
    simp [evalAnswers, sumMarks, effectMarks] at ih ⊢
    exact ih (k + 1)

theorem evalAnswers_effects_length (env : Env) (l : List FetchedAnswer) :
    ∀ k, (evalAnswers env l k).effects.length = l.length := by
  induction l with
  | nil => intro k; simp [evalAnswers]
  | cons a rest ih => intro k; simp [evalAnswers, ih (k + 1)]

theorem evalAnswers_allRemarks_length (env : Env) (l : List FetchedAnswer) :
    ∀ k, (evalAnswers env l k).allRemarks.length = l.length := by
  induction l with
  | nil => intro k; simp [evalAnswers]
  | cons a rest ih => intro k; simp [evalAnswers, ih (k + 1)]

theorem evalAnswers_mem_effect (env : Env) (a : FetchedAnswer)
    (l : List FetchedAnswer) :
    ∀ k, a ∈ l →
      ∃ m rem, Effect.updateAnswer a.id m rem env.now
        ((env.updateAnswerError a.id).isNone) ∈ (evalAnswers env l k).effects := by
  induction l with
  | nil => intro k h; cases h
  | cons b rest ih =>
    intro k h
    rcases List.mem_cons.mp h with rfl | h'
    · refine ⟨stubScore (jsOrOne a.qmarks) (env.rand (2 * k)),
        stubRemark (env.rand (2 * k + 1)), ?_⟩
      simp [evalAnswers]
    · obtain ⟨m, rem, hmem⟩ := ih (k + 1) h'
      refine ⟨m, rem, ?_⟩
      simp only [evalAnswers, List.mem_cons]
      exact Or.inr hmem

theorem evalAnswers_trace_interleaved (env : Env) (l : List FetchedAnswer) :
    ∀ k, WellInterleaved (l.map (fun a => a.id)) (evalAnswers env l k).trace := by
  induction l with
  | nil => intro k; simp [evalAnswers, WellInterleaved]
  | cons a rest ih =>
    intro k
    simp only [evalAnswers, List.map_cons]
    exact ⟨rfl, rfl, rfl, ih (k + 1)⟩

theorem evalAnswers_total_eq_traceSum (env : Env) (l : List FetchedAnswer) :
    ∀ k, (evalAnswers env l k).total =
      ((evalAnswers env l k).trace.filterMap eventScore).sum := by
  induction l with
  | nil => intro k; simp [evalAnswers]
  | cons a rest ih =>
    intro k
    simp [evalAnswers, eventScore, ih (k + 1)]

theorem serveHandler_ok (env : Env) (req : Req) (answers : List FetchedAnswer)
    (hm : ¬ req.method = "OPTIONS")
    (hf : env.fetch (req.body.lookup "responseId") = Except.ok answers)
    (hw : env.updateResponseError = none) :
    serveHandler env req =
      (⟨200, jsonHeaders,
        RespBody.success (evalAnswers env answers 0).total answers.length⟩,
       (evalAnswers env answers 0).effects ++
         [Effect.updateResponse (req.body.lookup "responseId")
           (evalAnswers env answers 0).total
           (totalRemark (evalAnswers env answers 0).total
             (evalAnswers env answers 0).allRemarks.length)
           env.now true]) := by
  simp [serveHandler, hm, hf, hw]

theorem serveHandler_fetchError (env : Env) (req : Req) (msg : String)
    (hm : ¬ req.method = "OPTIONS")
    (hf : env.fetch (req.body.lookup "responseId") = Except.error msg) :
    serveHandler env req = (⟨500, jsonHeaders, RespBody.err msg⟩, []) := by
  simp [serveHandler, hm, hf]

theorem serveHandler_writeError (env : Env) (req : Req)
    (answers : List FetchedAnswer) (msg : String)
    (hm : ¬ req.method = "OPTIONS")
    (hf : env.fetch (req.body.lookup "responseId") = Except.ok answers)
    (hw : env.updateResponseError = some msg) :
    serveHandler env req =
      (⟨500, jsonHeaders, RespBody.err msg⟩,
       (evalAnswers env answers 0).effects ++
         [Effect.updateResponse (req.body.lookup "responseId")
           (evalAnswers env answers 0).total
           (totalRemark (evalAnswers env answers 0).total
             (evalAnswers env answers 0).allRemarks.length)
           env.now false]) := by
  simp [serveHandler, hm, hf, hw]

/-- C1: after a successful evaluation run (answers fetched, final write
succeeds), the write issued to the `responses` row carries marks equal to
the sum of the per-answer marks computed in that same run, the remark
string `Total: N marks. K questions evaluated.` with `N` that sum and `K`
the number of answers processed, and the evaluation timestamp. -/
theorem C1_aggregate_write (env : Env) (req : Req)
    (answers : List FetchedAnswer)
    (hm : ¬ req.method = "OPTIONS")
    (hf : env.fetch (req.body.lookup "responseId") = Except.ok answers)
    (hw : env.updateResponseError = none) :
    (serveHandler env req).2 =
      (evalAnswers env answers 0).effects ++
        [Effect.updateResponse (req.body.lookup "responseId")
          (evalAnswers env answers 0).total
          (totalRemark (evalAnswers env answers 0).total answers.length)
          env.now true] ∧
    (evalAnswers env answers 0).total =
      sumMarks (evalAnswers env answers 0).effects := by
  constructor
  · rw [serveHandler_ok env req answers hm hf hw]
    simp [evalAnswers_allRemarks_length]
  · exact evalAnswers_total_eq_sumMarks env answers 0

/-- Witness for C1 at a concrete run: two answers, response id `r1`. -/
theorem C1_witness :
    (serveHandler demoEnv demoReq).2 =
      (evalAnswers demoEnv demoAnswers 0).effects ++
        [Effect.updateResponse (demoReq.body.lookup "responseId")
          (evalAnswers demoEnv demoAnswers 0).total
          (totalRemark (evalAnswers demoEnv demoAnswers 0).total
            demoAnswers.length)
          demoEnv.now true] ∧
    (evalAnswers demoEnv demoAnswers 0).total =
      sumMarks (evalAnswers demoEnv demoAnswers 0).effects :=
  C1_aggregate_write demoEnv demoReq demoAnswers (by decide) rfl rfl

/-- C2 as stated is false on the code: a question whose maximum-marks
value is 0 does not force marks 0, because `marks || 1` treats the falsy
value 0 as absent and defaults the maximum to 1; the legitimate draw
`r = 1/2` then yields marks 1 > 0. -/
theorem C2_counterexample :
    (0 : ℚ) ≤ 1/2 ∧ (1/2 : ℚ) < 1 ∧
    jsOrOne (some 0) = 1 ∧
    stubScore (jsOrOne (some 0)) (1/2) = 1 ∧
    ¬ stubScore (jsOrOne (some 0)) (1/2) ≤ 0 := by
  norm_num [stubScore, jsOrOne]

/-- C2 amended: with `M` the maximum-marks value defaulted to 1 both when
the value is absent and when it is 0 (the JavaScript falsy default), the
stub marks satisfy `0 ≤ marks ≤ M` for every draw in `[0, 1)`. -/
theorem C2_amended_bounds (qm : Option Int) (r : ℚ) (h0 : 0 ≤ r)
    (h1 : r < 1) (hm : ∀ v, qm = some v → 0 ≤ v) :
    0 ≤ stubScore (jsOrOne qm) r ∧
    stubScore (jsOrOne qm) r ≤ jsOrOne qm ∧
    jsOrOne none = 1 ∧ jsOrOne (some 0) = 1 := by
  have hpos := jsOrOne_pos qm hm
  exact ⟨stubScore_nonneg _ r (by omega) h0,
    stubScore_le _ r (by omega) h0 h1, rfl, rfl⟩

/-- Witness for the amended C2 at maximum marks 2 and draw 1/3. -/
theorem C2_witness :
    0 ≤ stubScore (jsOrOne (some 2)) (1/3) ∧
    stubScore (jsOrOne (some 2)) (1/3) ≤ jsOrOne (some 2) ∧
    jsOrOne none = 1 ∧ jsOrOne (some 0) = 1 :=
  C2_amended_bounds (some 2) (1/3) (by norm_num) (by norm_num)
    (fun v hv => by cases hv; omega)

/-- C3: when one answer's persist step fails, the handler still returns
success (the error is swallowed), every answer still gets its update
issued, the failed answer's write is recorded as failed, and its
just-computed marks are still part of the total that is written. -/
theorem C3_answer_write_failure_swallowed (env : Env) (req : Req)
    (answers : List FetchedAnswer) (a : FetchedAnswer) (msg : String)
    (hm : ¬ req.method = "OPTIONS")
    (hf : env.fetch (req.body.lookup "responseId") = Except.ok answers)
    (hw : env.updateResponseError = none)
    (ha : a ∈ answers)
    (he : env.updateAnswerError a.id = some msg) :
    (serveHandler env req).1.status = 200 ∧
    (evalAnswers env answers 0).effects.length = answers.length ∧
    (∃ m rem, Effect.updateAnswer a.id m rem env.now false ∈
      (evalAnswers env answers 0).effects) ∧
    (evalAnswers env answers 0).total =
      sumMarks (evalAnswers env answers 0).effects := by
  refine ⟨?_, evalAnswers_effects_length env answers 0, ?_,
    evalAnswers_total_eq_sumMarks env answers 0⟩
  · rw [serveHandler_ok env req answers hm hf hw]
  · obtain ⟨m, rem, hmem⟩ := evalAnswers_mem_effect env a answers 0 ha
    rw [he] at hmem
    exact ⟨m, rem, by simpa using hmem⟩

/-- Witness for C3: answer `a1` of the demo run fails to persist, yet the
run succeeds and all answers are processed. -/
theorem C3_witness :
    (serveHandler demoEnv demoReq).1.status = 200 ∧
    (evalAnswers demoEnv demoAnswers 0).effects.length =
      demoAnswers.length ∧
    (∃ m rem, Effect.updateAnswer "a1" m rem demoEnv.now false ∈
      (evalAnswers demoEnv demoAnswers 0).effects) ∧
    (evalAnswers demoEnv demoAnswers 0).total =
      sumMarks (evalAnswers demoEnv demoAnswers 0).effects :=
  C3_answer_write_failure_swallowed demoEnv demoReq demoAnswers
    ⟨"a1", "q1", none, some "first answer", some 2, "key1"⟩ "boom"
    (by decide) rfl rfl (by decide) rfl

/-- C4: the HTTP contract of the trigger — 200 with
`success/totalMarks/answersEvaluated = number of fetched answers` when
the fetch and the final write succeed; 500 with the raw message when the
fetch fails; 500 with the raw message when the final write fails (never
swallowed). -/
theorem C4_http_contract (env : Env) (req : Req)
    (hm : ¬ req.method = "OPTIONS") :
    (∀ answers,
      env.fetch (req.body.lookup "responseId") = Except.ok answers →
      env.updateResponseError = none →
      (serveHandler env req).1 =
        ⟨200, jsonHeaders,
          RespBody.success (evalAnswers env answers 0).total
            answers.length⟩) ∧
    (∀ msg, env.fetch (req.body.lookup "responseId") = Except.error msg →
      (serveHandler env req).1 = ⟨500, jsonHeaders, RespBody.err msg⟩) ∧
    (∀ answers msg,
      env.fetch (req.body.lookup "responseId") = Except.ok answers →
      env.updateResponseError = some msg →
      (serveHandler env req).1 = ⟨500, jsonHeaders, RespBody.err msg⟩) := by
  refine ⟨?_, ?_, ?_⟩
  · intro answers hf hw
    rw [serveHandler_ok env req answers hm hf hw]
  · intro msg hf
    rw [serveHandler_fetchError env req msg hm hf]
  · intro answers msg hf hw
    rw [serveHandler_writeError env req answers msg hm hf hw]

/-- Witness for C4 at the demo environment and request. -/
theorem C4_witness :
    (∀ answers,
      demoEnv.fetch (demoReq.body.lookup "responseId") =
        Except.ok answers →
      demoEnv.updateResponseError = none →
      (serveHandler demoEnv demoReq).1 =
        ⟨200, jsonHeaders,
          RespBody.success (evalAnswers demoEnv answers 0).total
            answers.length⟩) ∧
    (∀ msg, demoEnv.fetch (demoReq.body.lookup "responseId") =
        Except.error msg →
      (serveHandler demoEnv demoReq).1 =
        ⟨500, jsonHeaders, RespBody.err msg⟩) ∧
    (∀ answers msg,
      demoEnv.fetch (demoReq.body.lookup "responseId") =
        Except.ok answers →
      demoEnv.updateResponseError = some msg →
      (serveHandler demoEnv demoReq).1 =
        ⟨500, jsonHeaders, RespBody.err msg⟩) :=
  C4_http_contract demoEnv demoReq (by decide)

/-- C5: a submission id whose data is not fetchable yields the thrown
fetch error caught at the boundary: status 500, body carrying the raw
message, and never a success body. -/
theorem C5_unfetchable_is_500 (env : Env) (req : Req) (msg : String)
    (hm : ¬ req.method = "OPTIONS")
    (hf : env.fetch (req.body.lookup "responseId") = Except.error msg) :
    (serveHandler env req).1.status = 500 ∧
    (serveHandler env req).1.body = RespBody.err msg ∧
    ∀ t n, (serveHandler env req).1.body ≠ RespBody.success t n := by
  rw [serveHandler_fetchError env req msg hm hf]
  exact ⟨rfl, rfl, fun t n h => RespBody.noConfusion h⟩

/-- Witness for C5: the demo store does not know id `zzz`. -/
theorem C5_witness :
    (serveHandler demoEnv demoReqBad).1.status = 500 ∧
    (serveHandler demoEnv demoReqBad).1.body = RespBody.err "missing" ∧
    ∀ t n, (serveHandler demoEnv demoReqBad).1.body ≠
      RespBody.success t n :=
  C5_unfetchable_is_500 demoEnv demoReqBad "missing" (by decide) rfl

/-- C6 as stated is false on the code: the handler destructures
`responseId` from the request body, not `submissionId`.  A body carrying
the id only under `submissionId` is treated as carrying no id (here: the
store rejects the unknown id, status 500), while the same id under
`responseId` is found (status 200). -/
theorem C6_counterexample :
    (serveHandler demoEnv ⟨"POST", [("submissionId", "r1")]⟩).1.status =
      500 ∧
    (serveHandler demoEnv ⟨"POST", [("responseId", "r1")]⟩).1.status =
      200 := by
  constructor
  · rw [serveHandler_fetchError demoEnv ⟨"POST", [("submissionId", "r1")]⟩
      "missing" (by decide) rfl]
  · rw [serveHandler_ok demoEnv ⟨"POST", [("responseId", "r1")]⟩
      demoAnswers (by decide) rfl rfl]

/-- C6 amended: the POST endpoint reads the submission identifier from
the `responseId` field of the JSON request body; the handler's response
and writes depend on the body only through that field. -/
theorem C6_amended_reads_responseId (env : Env) (m : String)
    (b1 b2 : List (String × String))
    (h : b1.lookup "responseId" = b2.lookup "responseId") :
    serveHandler env ⟨m, b1⟩ = serveHandler env ⟨m, b2⟩ := by
  simp only [serveHandler, h]

/-- Witness for the amended C6: an extra `imageUrl` field does not change
the outcome when `responseId` agrees. -/
theorem C6_witness :
    serveHandler demoEnv
        ⟨"POST", [("responseId", "r1"), ("imageUrl", "http://img")]⟩ =
      serveHandler demoEnv ⟨"POST", [("responseId", "r1")]⟩ :=
  C6_amended_reads_responseId demoEnv "POST"
    [("responseId", "r1"), ("imageUrl", "http://img")]
    [("responseId", "r1")] rfl

/-- C7: the legacy single-image variant (modelled from the spec, see
`legacyServeHandler`) ignores the `imageUrl` field entirely, issues its
single stub-scored write directly on the `responses` row with no
per-answer writes, and on success returns
`success` with `marks` and `remarks`. -/
theorem C7_legacy_variant (maxM : Int) (env : Env) (m : String)
    (b1 b2 : List (String × String))
    (hm : ¬ m = "OPTIONS")
    (h : b1.lookup "responseId" = b2.lookup "responseId") :
    legacyServeHandler maxM env ⟨m, b1⟩ =
      legacyServeHandler maxM env ⟨m, b2⟩ ∧
    (∀ e ∈ (legacyServeHandler maxM env ⟨m, b1⟩).2,
      ∃ rid mk rem ok, e = Effect.updateResponse rid mk rem env.now ok) ∧
    (env.updateResponseError = none →
      (legacyServeHandler maxM env ⟨m, b1⟩).1 =
        ⟨200, jsonHeaders,
          RespBody.legacySuccess (stubScore maxM (env.rand 0))
            (stubRemark (env.rand 1))⟩) := by
  refine ⟨by simp only [legacyServeHandler, h], ?_, ?_⟩
  · intro e he
    rcases hw : env.updateResponseError with _ | msg <;>
      · simp only [legacyServeHandler, if_neg hm, hw,
          List.mem_singleton] at he
        exact ⟨_, _, _, _, he⟩
  · intro hw
    simp [legacyServeHandler, if_neg hm, hw]

/-- Witness for C7 at maximum marks 10 and the demo environment. -/
theorem C7_witness :
    legacyServeHandler 10 demoEnv
        ⟨"POST", [("responseId", "r1"), ("imageUrl", "http://img")]⟩ =
      legacyServeHandler 10 demoEnv ⟨"POST", [("responseId", "r1")]⟩ ∧
    (∀ e ∈ (legacyServeHandler 10 demoEnv
        ⟨"POST", [("responseId", "r1"), ("imageUrl", "http://img")]⟩).2,
      ∃ rid mk rem ok,
        e = Effect.updateResponse rid mk rem demoEnv.now ok) ∧
    (demoEnv.updateResponseError = none →
      (legacyServeHandler 10 demoEnv
          ⟨"POST", [("responseId", "r1"), ("imageUrl", "http://img")]⟩).1 =
        ⟨200, jsonHeaders,
          RespBody.legacySuccess (stubScore 10 (demoEnv.rand 0))
            (stubRemark (demoEnv.rand 1))⟩) :=
  C7_legacy_variant 10 demoEnv "POST"
    [("responseId", "r1"), ("imageUrl", "http://img")]
    [("responseId", "r1")] (by decide) rfl

/-- C8 as stated is false on the code: the preflight response does carry
status 200 with an empty body, but its header list is exactly the two
cross-origin headers of `corsHeaders` — no three pairwise-distinct
headers are present on it. -/
theorem C8_counterexample :
    (serveHandler demoEnv ⟨"OPTIONS", []⟩).1 =
      ⟨200, corsHeaders, RespBody.empty⟩ ∧
    corsHeaders.length = 2 ∧
    ¬ ∃ h1 h2 h3 : String × String,
        h1 ≠ h2 ∧ h1 ≠ h3 ∧ h2 ≠ h3 ∧
        h1 ∈ (serveHandler demoEnv ⟨"OPTIONS", []⟩).1.headers ∧
        h2 ∈ (serveHandler demoEnv ⟨"OPTIONS", []⟩).1.headers ∧
        h3 ∈ (serveHandler demoEnv ⟨"OPTIONS", []⟩).1.headers := by
  refine ⟨rfl, rfl, ?_⟩
  rintro ⟨h1, h2, h3, n12, n13, n23, m1, m2, m3⟩
  have hh : (serveHandler demoEnv ⟨"OPTIONS", []⟩).1.headers =
      corsHeaders := rfl
  rw [hh] at m1 m2 m3
  simp only [corsHeaders, List.mem_cons, List.mem_singleton,
    List.not_mem_nil, or_false] at m1 m2 m3
  rcases m1 with m1 | m1 <;> rcases m2 with m2 | m2 <;>
    rcases m3 with m3 | m3 <;> simp_all

/-- C8 amended: an OPTIONS request returns status 200 with empty body and
exactly the two cross-origin headers the handler defines (allow-origin
`*` and allow-headers covering authorization, content-type, client-info
and api-key), and every response the handler returns carries both. -/
theorem C8_amended_cors (env : Env) (req : Req) :
    (("Access-Control-Allow-Origin", "*") ∈
        (serveHandler env req).1.headers ∧
     ("Access-Control-Allow-Headers",
        "authorization, x-client-info, apikey, content-type") ∈
        (serveHandler env req).1.headers) ∧
    (req.method = "OPTIONS" →
      (serveHandler env req).1 = ⟨200, corsHeaders, RespBody.empty⟩) := by
  by_cases hm : req.method = "OPTIONS"
  · simp [serveHandler, hm, corsHeaders]
  · rcases hfe : env.fetch (req.body.lookup "responseId") with msg | answers
    · rw [serveHandler_fetchError env req msg hm hfe]
      simp [jsonHeaders, corsHeaders, hm]
    · rcases hw : env.updateResponseError with _ | msg
      · rw [serveHandler_ok env req answers hm hfe hw]
        simp [jsonHeaders, corsHeaders, hm]
      · rw [serveHandler_writeError env req answers msg hm hfe hw]
        simp [jsonHeaders, corsHeaders, hm]

/-- Witness for the amended C8 at a concrete preflight request. -/
theorem C8_witness :
    (("Access-Control-Allow-Origin", "*") ∈
        (serveHandler demoEnv ⟨"OPTIONS", []⟩).1.headers ∧
     ("Access-Control-Allow-Headers",
        "authorization, x-client-info, apikey, content-type") ∈
        (serveHandler demoEnv ⟨"OPTIONS", []⟩).1.headers) ∧
    ((Req.mk "OPTIONS" []).method = "OPTIONS" →
      (serveHandler demoEnv ⟨"OPTIONS", []⟩).1 =
        ⟨200, corsHeaders, RespBody.empty⟩) :=
  C8_amended_cors demoEnv ⟨"OPTIONS", []⟩

/-- C9: the upload flow preserves the uniqueness of the
`(exam_id, roll_number)` pair, and an attempt to create a second
submission with an already-present pair is rejected with the store —
including the `response_answers` table — left unchanged. -/
theorem C9_unique_submission (db : DB) (examId rollNumber newId : String)
    (ans : List AnswerForm) (hu : uniquePairs db) :
    uniquePairs (uploadSubmit db examId rollNumber newId ans).1 ∧
    ((∃ r ∈ db.responses, r.exam_id = examId ∧
        r.roll_number = rollNumber.trim) →
      (uploadSubmit db examId rollNumber newId ans).2.isSome ∧
      (uploadSubmit db examId rollNumber newId ans).1 = db) := by
  have hiff : (db.responses.any (fun r =>
      r.exam_id == examId && r.roll_number == rollNumber.trim) = true) ↔
      ∃ r ∈ db.responses, r.exam_id = examId ∧
        r.roll_number = rollNumber.trim := by
    simp [List.any_eq_true, Bool.and_eq_true, beq_iff_eq]
  by_cases hdup : db.responses.any (fun r =>
      r.exam_id == examId && r.roll_number == rollNumber.trim) = true
  · constructor
    · simpa [uploadSubmit, hdup] using hu
    · intro _
      simp [uploadSubmit, hdup]
  · constructor
    · have hnone : ∀ r ∈ db.responses,
          ¬ (r.exam_id = examId ∧ r.roll_number = rollNumber.trim) := by
        intro r hr hk
        exact hdup (hiff.mpr ⟨r, hr, hk⟩)
      simp only [uploadSubmit, hdup, Bool.false_eq_true, if_false]
      unfold uniquePairs at hu ⊢
      rw [List.pairwise_append]
      refine ⟨hu, List.pairwise_singleton _ _, ?_⟩
      intro a ha b hb
      rw [List.mem_singleton] at hb
      subst hb
      intro hk
      exact hnone a ha ⟨hk.1, hk.2⟩
    · intro hx
      exact absurd (hiff.mpr hx) hdup

/-- Witness for C9: the demo store already holds roll `roll-7` for exam
`e1`, so the duplicate is rejected with the store unchanged. -/
theorem C9_witness :
    uniquePairs (uploadSubmit demoDB "e1" "roll-7" "r2" []).1 ∧
    ((∃ r ∈ demoDB.responses, r.exam_id = "e1" ∧
        r.roll_number = "roll-7".trim) →
      (uploadSubmit demoDB "e1" "roll-7" "r2" []).2.isSome ∧
      (uploadSubmit demoDB "e1" "roll-7" "r2" []).1 = demoDB) :=
  C9_unique_submission demoDB "e1" "roll-7" "r2" []
    (by simp [uniquePairs, demoDB])

/-- C10: the evaluation loop processes the fetched answers strictly
sequentially in fetch order — for each answer the score draw, the remark
draw and the completion of that answer's write occur before any event of
the next answer, so no two answer writes are ever in flight — and the
total accumulates the drawn scores in that same order. -/
theorem C10_sequential_processing (env : Env) (l : List FetchedAnswer)
    (k : Nat) :
    WellInterleaved (l.map (fun a => a.id)) (evalAnswers env l k).trace ∧
    (evalAnswers env l k).total =
      ((evalAnswers env l k).trace.filterMap eventScore).sum :=
  ⟨evalAnswers_trace_interleaved env l k,
   evalAnswers_total_eq_traceSum env l k⟩

end EasyEval
